import Mathlib

/-!
Shallow embedding of the midiccmap remapping engine (src/midiccmap.c, final
version of the file, lines 1389-2232): the mapping table and its validation
(`setMidiMap`), the scaling/clipping arithmetic and minimal re-encoders
(`midiSendParm`, `midiSendCc`, `midiSendPb`, `midiSendAt`, `midiSend`'s
output-status update), and the running-status stream decoder / dispatcher
(the `for` loop over input bytes in `main`).

C machine integers are modelled explicitly: `unsigned char` values are `Nat`
reduced mod 256 at conversion points, `int` values are `Int` wrapped with
`toInt32` where a C conversion or possible overflow occurs (gcc two's
complement behaviour, as the program is built with gcc per its README), and
`unsigned int` arithmetic is `Nat` arithmetic mod 2^32.  C signed integer
division truncates toward zero, which is `Int.tdiv`; C unsigned division is
`Nat` division.
-/

namespace Midiccmap

set_option maxRecDepth 8192

/-- Wrap an integer to a 32-bit two's-complement `int` (gcc semantics for
out-of-range conversions). -/
def toInt32 (x : Int) : Int := (x + 2 ^ 31) % 2 ^ 32 - 2 ^ 31

/-- Value of an integer converted to C `unsigned int` (reduction mod 2^32). -/
def toUInt32n (x : Int) : Nat := (x % 2 ^ 32).toNat

/-- Value of a nonnegative integer converted to C `unsigned char` (mod 256). -/
def toUChar (x : Nat) : Nat := x % 256

/-- `enum MapType {NONE, NRPN, RPN, CC, PB, AT};` -/
inductive MapType
  | NONE | NRPN | RPN | CC | PB | AT
deriving DecidableEq, Repr

open MapType

/-- `const int mapNumMax[]={0, 16383, 16383, 127, 0, 0};` -/
def mapNumMax : MapType → Nat
  | NONE => 0
  | NRPN => 16383
  | RPN  => 16383
  | CC   => 127
  | PB   => 0
  | AT   => 0

/-- `const int mapToMin[]={0, 0, 0, 0, 0, 0};` -/
def mapToMin : MapType → Int
  | NONE => 0
  | NRPN => 0
  | RPN  => 0
  | CC   => 0
  | PB   => 0
  | AT   => 0

/-- `const int mapToMax[]={16383, 16383, 16383, 127, 16383, 127};` -/
def mapToMax : MapType → Int
  | NONE => 16383
  | NRPN => 16383
  | RPN  => 16383
  | CC   => 127
  | PB   => 16383
  | AT   => 127

/-- `struct MidiMap { enum MapType type; unsigned int num; int valFrom; int valTo; };` -/
structure MidiMap where
  type : MapType
  num : Nat
  valFrom : Int
  valTo : Int
deriving DecidableEq, Repr

/-- Configuration errors returned by `setMidiMap` (both print via
`errormessage` and `return(-1)`): invalid destination parameter number, or
unusable output range. -/
inductive MapError
  | badNum | unusableRange
deriving DecidableEq, Repr

/-- Non-fatal warnings emitted by `setMidiMap`: duplicate definition
override, and out-of-range bounds that will clip at runtime. -/
inductive MapWarning
  | duplicate | clip
deriving DecidableEq, Repr

/-- Result of one `setMidiMap` call: the error (if any), the entry after the
call (the C code mutates `*map` only on success, after all checks), and the
warnings printed along the way. -/
structure SetMapResult where
  err : Option MapError
  map : MidiMap
  warnings : List MapWarning
deriving DecidableEq, Repr

/-- The destination-number validation switch at the top of `setMidiMap`:
`CC`/`RPN`/`NRPN` require `destNum <= mapNumMax[destType]`; `PB`/`AT`/`NONE`
require `destNum == 0`. -/
def badDestNum (destType : MapType) (destNum : Nat) : Bool :=
  match destType with
  | CC | RPN | NRPN => decide (mapNumMax destType < destNum)
  | PB | AT | NONE => decide (destNum ≠ 0)

/-- `int setMidiMap(struct MidiMap *map, const enum MapType destType, const
unsigned destNum, const long destValFrom, const long destValTo)`.  Checks run
in source order: destination number, duplicate-definition warning, unusable
range error, clipping warning, then the four field assignments (`valFrom`
and `valTo` are `long` narrowed to the struct's `int` fields). -/
def setMidiMap (map : MidiMap) (destType : MapType) (destNum : Nat)
    (destValFrom destValTo : Int) : SetMapResult :=
  if badDestNum destType destNum then
    ⟨some .badNum, map, []⟩
  else
    let w1 : List MapWarning := if map.type ≠ NONE then [.duplicate] else []
    let valMin := mapToMin destType
    let valMax := mapToMax destType
    if (destValFrom < valMin ∧ destValTo < valMin) ∨
       (destValFrom > valMax ∧ destValTo > valMax) then
      ⟨some .unusableRange, map, w1⟩
    else
      let w2 := if destValFrom < valMin ∨ destValTo < valMin ∨
                   destValFrom > valMax ∨ destValTo > valMax
                then w1 ++ [.clip] else w1
      ⟨none, ⟨destType, destNum, toInt32 destValFrom, toInt32 destValTo⟩, w2⟩

/-- The entry every `ccMaps[i]` holds after `init_maps()`:
`setCcMap(NONE, i, 0, mapToMin[CC], mapToMax[CC])`, i.e. `{NONE, 0, 0, 127}`. -/
def defaultCcEntry : MidiMap := ⟨NONE, 0, 0, 127⟩

/-- `atMap` after `init_maps()` (and the redundant `atMap.type=NONE`):
`{NONE, 0, 0, 127}` from `setAtMap(NONE, 0, mapToMin[AT], mapToMax[AT])`. -/
def defaultAtEntry : MidiMap := ⟨NONE, 0, 0, 127⟩

/-- `pbMap` after `init_maps()`: `{NONE, 0, 0, 16383}` from
`setPbMap(NONE, 0, mapToMin[PB], mapToMax[PB])`. -/
def defaultPbEntry : MidiMap := ⟨NONE, 0, 0, 16383⟩

/-- The output-status update performed by `midiSend`: scan the written buffer
backwards and set `*status` to the first byte found with bit 7 set (i.e. the
last status-carrying byte written); leave it unchanged if none. -/
def midiSendStatus (outBuffer : List Nat) (status : Nat) : Nat :=
  match outBuffer.reverse.find? (fun b => b &&& 0x80 != 0) with
  | some b => b
  | none => status

/-- The scaled value computed in `midiSendParm`:
`parmVal = map->valFrom + val*(map->valTo-map->valFrom)/max;` where `val` and
`max` are `unsigned int` and the map fields are `int`, so the product and the
division are carried out in unsigned 32-bit arithmetic (the signed difference
converts to `unsigned int`), and the sum is narrowed back into the `int`
variable `parmVal`. -/
def parmScaleRaw (map : MidiMap) (val max : Nat) : Int :=
  toInt32 (Int.ofNat ((toUInt32n map.valFrom +
    (val * toUInt32n (map.valTo - map.valFrom)) % 2 ^ 32 / max) % 2 ^ 32))

/-- `parmVal` after the two clipping tests in `midiSendParm`
(`if (parmVal<0) parmVal=0; if (parmVal>16383) parmVal=16383;`). -/
def parmClipped (map : MidiMap) (val max : Nat) : Int :=
  let raw := parmScaleRaw map val max
  let raw := if raw < 0 then 0 else raw
  if raw > 16383 then 16383 else raw

/-- `midiSendParm`: build the NRPN/RPN byte sequence (status `0xB0+channel`
only when it differs from `*runningStatusOut`, the address pair, the data
entry MSB/LSB, and the unconditional RPN-null terminator `65 7F 64 7F`),
then `midiSend` it.  Returns the written bytes and the updated
`runningStatusOut`. -/
def midiSendParm (runningStatusOut channel : Nat) (map : MidiMap)
    (val max : Nat) : List Nat × Nat :=
  let pv := parmClipped map val max
  let newStatusOut := toUChar (0xB0 + channel)
  let buf :=
    (if newStatusOut ≠ runningStatusOut then [newStatusOut] else []) ++
    [(if map.type = RPN then 0x65 else 0x63),
     (map.num >>> 7) &&& 0x7F,
     (if map.type = RPN then 0x64 else 0x62),
     map.num &&& 0x7F,
     0x06,
     (pv.toNat >>> 7) &&& 0x7F,
     0x26,
     pv.toNat &&& 0x7F,
     0x65, 0x7F, 0x64, 0x7F]
  (buf, midiSendStatus buf runningStatusOut)

/-- The value emitted by `midiSendCc`.  `ccVal` is declared `unsigned char`,
so `ccVal = map->valFrom + val*(map->valTo-map->valFrom)/max;` (unsigned
32-bit arithmetic, as in `midiSendParm`) is reduced mod 256 on assignment;
the following `if (ccVal<0) ccVal=0;` can never fire on an unsigned char and
only the `if (ccVal>127) ccVal=127;` test is live. -/
def ccSendVal (map : MidiMap) (val max : Nat) : Nat :=
  let s := (toUInt32n map.valFrom +
    (val * toUInt32n (map.valTo - map.valFrom)) % 2 ^ 32 / max) % 2 ^ 32
  let ccVal := s % 256
  if ccVal > 127 then 127 else ccVal

/-- `midiSendCc`: status `0xB0+channel` only if changed, then the destination
controller number and the clipped value. -/
def midiSendCc (runningStatusOut channel : Nat) (map : MidiMap)
    (val max : Nat) : List Nat × Nat :=
  let cv := ccSendVal map val max
  let newStatusOut := toUChar (0xB0 + channel)
  let buf := (if newStatusOut ≠ runningStatusOut then [newStatusOut] else []) ++
    [toUChar map.num, cv]
  (buf, midiSendStatus buf runningStatusOut)

/-- The scaled value computed in `midiSendPb`:
`pbVal = map->valFrom + ((long)val*(map->valTo-map->valFrom))/max;` — here the
explicit `(long)` cast makes the product and division signed 64-bit with
truncation toward zero (the `int` difference itself can still wrap).  Then
the two clipping tests to [0,16383]. -/
def pbSendVal (map : MidiMap) (val max : Nat) : Int :=
  let pv := map.valFrom +
    Int.tdiv ((val : Int) * toInt32 (map.valTo - map.valFrom)) (max : Int)
  let pv := if pv < 0 then 0 else pv
  if pv > 16383 then 16383 else pv

/-- `midiSendPb`: status `0xE0+channel` only if changed, then value LSB and
MSB. -/
def midiSendPb (runningStatusOut channel : Nat) (map : MidiMap)
    (val max : Nat) : List Nat × Nat :=
  let pv := (pbSendVal map val max).toNat
  let newStatusOut := toUChar (0xE0 + channel)
  let buf := (if newStatusOut ≠ runningStatusOut then [newStatusOut] else []) ++
    [pv &&& 0x7F, (pv >>> 7) &&& 0x7F]
  (buf, midiSendStatus buf runningStatusOut)

/-- The scaled value computed in `midiSendAt` (same signed `(long)`
arithmetic as `midiSendPb`, clipped to [0,127]). -/
def atSendVal (map : MidiMap) (val max : Nat) : Int :=
  let av := map.valFrom +
    Int.tdiv ((val : Int) * toInt32 (map.valTo - map.valFrom)) (max : Int)
  let av := if av < 0 then 0 else av
  if av > 127 then 127 else av

/-- `midiSendAt`: status `0xD0+channel` only if changed, then the single
pressure byte. -/
def midiSendAt (runningStatusOut channel : Nat) (map : MidiMap)
    (val max : Nat) : List Nat × Nat :=
  let av := (atSendVal map val max).toNat
  let newStatusOut := toUChar (0xD0 + channel)
  let buf := (if newStatusOut ≠ runningStatusOut then [newStatusOut] else []) ++
    [av &&& 0x7F]
  (buf, midiSendStatus buf runningStatusOut)

/-- `enum readStates {PASSTHRU, GOT_CC, PROCESS_CC_PARM, PROCESS_CC_CC,
PROCESS_CC_PB, PROCESS_CC_AT, GOT_AT, GOT_PB, PROCESS_PB} readState;` -/
inductive ReadState
  | PASSTHRU | GOT_CC | PROCESS_CC_PARM | PROCESS_CC_CC | PROCESS_CC_PB
  | PROCESS_CC_AT | GOT_AT | GOT_PB | PROCESS_PB
deriving DecidableEq, Repr

/-- The mapping table once stream processing starts: the 128-entry `ccMaps`
array (modelled as a total function; the decoder only ever indexes it with a
7-bit data byte), `atMap` and `pbMap`. -/
structure Config where
  ccMaps : Nat → MidiMap
  atMap : MidiMap
  pbMap : MidiMap

/-- The mutable locals of `main`'s processing loop that survive from one
input byte to the next: `readState`, `runningStatusIn`, `runningStatusOut`,
`channel`, `ccNum`, `pbLSB` (all but `readState` are byte/int scalars). -/
structure LoopState where
  readState : ReadState
  runningStatusIn : Nat
  runningStatusOut : Nat
  channel : Nat
  ccNum : Nat
  pbLSB : Nat
deriving DecidableEq, Repr

/-- Configuration after startup with no mapping options: all sources
pass-through. -/
def initConfig : Config :=
  ⟨fun _ => defaultCcEntry, defaultAtEntry, defaultPbEntry⟩

/-- Loop state at the top of the processing loop: `readState = PASSTHRU`,
both running statuses 0 (the C locals are zero at first use). -/
def initState : LoopState := ⟨.PASSTHRU, 0, 0, 0, 0, 0⟩

/-- The scaled value computed inline in the `PROCESS_CC_CC` case of `main`:
`ccVal = ccMaps[ccNum].valFrom + inBuffer[i]*(ccMaps[ccNum].valTo-ccMaps[ccNum].valFrom)/127;`
— here everything is (signed) `int`: the data byte promotes to `int`, the
product and sum can wrap, and `/127` truncates toward zero.  Followed by the
two clipping tests to [0,127]. -/
def ccInlineVal (m : MidiMap) (b : Nat) : Int :=
  let cv := toInt32 (m.valFrom +
    Int.tdiv (toInt32 ((b : Int) * toInt32 (m.valTo - m.valFrom))) 127)
  let cv := if cv < 0 then 0 else cv
  if cv > 127 then 127 else cv

/-- One iteration of the `for(int i=0; i<count; i++)` loop in `main`: process
one input byte, returning the successor loop state and the bytes written to
the output.  Status bytes (bit 7 set) update `runningStatusIn`/`channel` and
select the next state from the high nibble; data bytes are interpreted per
`readState`.  The C code's trailing `if (readState == PASSTHRU)` forward is
folded into the two places that can leave `readState` at `PASSTHRU` (a
non-CC/AT/PB status byte, and a data byte received in `PASSTHRU`): no
data-byte case ever sets `readState` to `PASSTHRU`. -/
def processByte (cfg : Config) (st : LoopState) (b : Nat) :
    LoopState × List Nat :=
  if b &&& 0x80 != 0 then
    -- Received status byte, 80..FF
    let rs :=
      if b &&& 0xF0 = 0xB0 then ReadState.GOT_CC
      else if b &&& 0xF0 = 0xD0 then ReadState.GOT_AT
      else if b &&& 0xF0 = 0xE0 then ReadState.GOT_PB
      else ReadState.PASSTHRU
    let st' :=
      { st with
        runningStatusIn := b
        channel := b &&& 0x0F
        readState := rs }
    if st'.readState = ReadState.PASSTHRU then
      ({ st' with runningStatusOut := midiSendStatus [b] st'.runningStatusOut },
       [b])
    else
      (st', [])
  else
    -- Received data byte, 00..7F
    match st.readState with
    | .PASSTHRU =>
      ({ st with runningStatusOut := midiSendStatus [b] st.runningStatusOut },
       [b])
    | .GOT_CC =>
      -- Got a cc number; next state depends on map type
      let ccNum := b
      match (cfg.ccMaps ccNum).type with
      | .NONE =>
        -- Catch up with status, send unchanged cc number
        let buf := [st.runningStatusIn, ccNum]
        ({ st with
            ccNum := ccNum
            readState := .PROCESS_CC_CC
            runningStatusOut := midiSendStatus buf st.runningStatusOut }, buf)
      | .NRPN | .RPN =>
        ({ st with ccNum := ccNum, readState := .PROCESS_CC_PARM }, [])
      | .CC =>
        -- Catch up with status, send remapped cc
        let buf := [st.runningStatusIn, (cfg.ccMaps ccNum).num &&& 0x7F]
        ({ st with
            ccNum := ccNum
            readState := .PROCESS_CC_CC
            runningStatusOut := midiSendStatus buf st.runningStatusOut }, buf)
      | .PB =>
        ({ st with ccNum := ccNum, readState := .PROCESS_CC_PB }, [])
      | .AT =>
        ({ st with ccNum := ccNum, readState := .PROCESS_CC_AT }, [])
    | .PROCESS_CC_PARM =>
      let r := midiSendParm st.runningStatusOut st.channel
        (cfg.ccMaps st.ccNum) b 127
      ({ st with readState := .GOT_CC, runningStatusOut := r.2 }, r.1)
    | .PROCESS_CC_CC =>
      -- value already in [0,127] after the clips; the unsigned char store
      -- in `outBuffer[0]=ccVal` is the identity
      let buf := [(ccInlineVal (cfg.ccMaps st.ccNum) b).toNat]
      ({ st with
          readState := .GOT_CC
          runningStatusOut := midiSendStatus buf st.runningStatusOut }, buf)
    | .PROCESS_CC_PB =>
      let r := midiSendPb st.runningStatusOut st.channel
        (cfg.ccMaps st.ccNum) b 127
      ({ st with readState := .GOT_CC, runningStatusOut := r.2 }, r.1)
    | .PROCESS_CC_AT =>
      let r := midiSendAt st.runningStatusOut st.channel
        (cfg.ccMaps st.ccNum) b 127
      ({ st with readState := .GOT_CC, runningStatusOut := r.2 }, r.1)
    | .GOT_AT =>
      let atVal := b
      match cfg.atMap.type with
      | .NONE =>
        let newStatusOut := st.runningStatusIn
        let buf := (if newStatusOut ≠ st.runningStatusOut
                    then [newStatusOut] else []) ++ [atVal]
        ({ st with
            readState := .GOT_AT
            runningStatusOut := midiSendStatus buf st.runningStatusOut }, buf)
      | .CC =>
        let r := midiSendCc st.runningStatusOut st.channel cfg.atMap atVal 127
        ({ st with readState := .GOT_AT, runningStatusOut := r.2 }, r.1)
      | .RPN | .NRPN =>
        let r := midiSendParm st.runningStatusOut st.channel cfg.atMap atVal 127
        ({ st with readState := .GOT_AT, runningStatusOut := r.2 }, r.1)
      | .PB =>
        let r := midiSendPb st.runningStatusOut st.channel cfg.atMap atVal 127
        ({ st with readState := .GOT_AT, runningStatusOut := r.2 }, r.1)
      | .AT =>
        let r := midiSendAt st.runningStatusOut st.channel cfg.atMap atVal 127
        ({ st with readState := .GOT_AT, runningStatusOut := r.2 }, r.1)
    | .GOT_PB =>
      -- LSB only for now, will receive MSB later
      ({ st with pbLSB := b &&& 0x7F, readState := .PROCESS_PB }, [])
    | .PROCESS_PB =>
      -- Merge MSB with previously received LSB
      let pbVal := st.pbLSB + ((b &&& 0x7F) <<< 7)
      match cfg.pbMap.type with
      | .NONE =>
        let newStatusOut := st.runningStatusIn
        let buf := (if newStatusOut ≠ st.runningStatusOut
                    then [newStatusOut] else []) ++
                   [pbVal &&& 0x7F, (pbVal >>> 7) &&& 0x7F]
        ({ st with
            readState := .GOT_PB
            runningStatusOut := midiSendStatus buf st.runningStatusOut }, buf)
      | .CC =>
        let r := midiSendCc st.runningStatusOut st.channel cfg.pbMap pbVal 16383
        ({ st with readState := .GOT_PB, runningStatusOut := r.2 }, r.1)
      | .RPN | .NRPN =>
        let r := midiSendParm st.runningStatusOut st.channel cfg.pbMap pbVal 16383
        ({ st with readState := .GOT_PB, runningStatusOut := r.2 }, r.1)
      | .PB =>
        let r := midiSendPb st.runningStatusOut st.channel cfg.pbMap pbVal 16383
        ({ st with readState := .GOT_PB, runningStatusOut := r.2 }, r.1)
      | .AT =>
        let r := midiSendAt st.runningStatusOut st.channel cfg.pbMap pbVal 16383
        ({ st with readState := .GOT_PB, runningStatusOut := r.2 }, r.1)

/-- Processing of a whole input byte sequence: fold `processByte` over it,
concatenating the output bytes. -/
def processBytes (cfg : Config) : LoopState → List Nat → LoopState × List Nat
  | st, [] => (st, [])
  | st, b :: rest =>
    let r := processByte cfg st b
    let r2 := processBytes cfg r.1 rest
    (r2.1, r.2 ++ r2.2)

/-! ### Helper lemmas -/

theorem and128_eq_zero_of_lt : ∀ b < 128, b &&& 128 = 0 := by decide

theorem and128_ne_zero_of_status : ∀ b, b < 256 → 128 ≤ b → b &&& 128 ≠ 0 := by
  decide

theorem statusByteFacts : ∀ c < 16,
    (0xB0 + c) &&& 0x80 ≠ 0 ∧ (0xB0 + c) &&& 0xF0 = 0xB0 ∧
    (0xB0 + c) &&& 0x0F = c ∧
    (0xD0 + c) &&& 0x80 ≠ 0 ∧ (0xE0 + c) &&& 0x80 ≠ 0 := by decide

theorem and127_and128 (x : Nat) : x &&& 127 &&& 128 = 0 :=
  and128_eq_zero_of_lt _ (Nat.lt_succ_of_le (Nat.and_le_right))

theorem toUChar_status (c : Nat) (base : Nat) (hc : c < 16) (hb : base ≤ 0xE0)
    (hb16 : base % 16 = 0) : toUChar (base + c) = base + c :=
  Nat.mod_eq_of_lt (by omega)

/-- `ccInlineVal` on a pass-through (`NONE`) entry is the identity on 7-bit
values: `0 + v*(127-0)/127 = v`. -/
theorem ccInlineVal_default : ∀ v < 128,
    (ccInlineVal defaultCcEntry v).toNat = v := by decide

theorem midiSendStatus_nodata (buf : List Nat) (rs : Nat)
    (h : ∀ x ∈ buf, x &&& 128 = 0) : midiSendStatus buf rs = rs := by
  unfold midiSendStatus
  have : buf.reverse.find? (fun b => b &&& 0x80 != 0) = none := by
    rw [List.find?_eq_none]
    intro x hx
    simp only [bne_iff_ne, ne_eq, Decidable.not_not]
    exact h x (List.mem_reverse.mp hx)
  rw [this]

theorem midiSendStatus_cons (d : Nat) (data : List Nat) (rs : Nat)
    (hd : d &&& 128 ≠ 0) (h : ∀ x ∈ data, x &&& 128 = 0) :
    midiSendStatus (d :: data) rs = d := by
  unfold midiSendStatus
  have hrev : (d :: data).reverse = data.reverse ++ [d] := by
    simp [List.reverse_cons]
  rw [hrev, List.find?_append]
  have h1 : data.reverse.find? (fun b => b &&& 0x80 != 0) = none := by
    rw [List.find?_eq_none]
    intro x hx
    simp only [bne_iff_ne, ne_eq, Decidable.not_not]
    exact h x (List.mem_reverse.mp hx)
  rw [h1]
  have hb : (d &&& 128 != 0) = true := by simpa using hd
  simp [List.find?, hb]

/-! ### Step lemmas for the decoder -/

/-- Receiving a CC status byte `0xB0+c`: `runningStatusIn`/`channel` are set
and the decoder enters `GOT_CC`; nothing is written. -/
theorem processByte_ccStatus (cfg : Config) (st : LoopState) (c : Nat)
    (hc : c < 16) :
    processByte cfg st (0xB0 + c) =
      ({ st with
          runningStatusIn := 0xB0 + c
          channel := c
          readState := .GOT_CC }, []) := by
  obtain ⟨h1, h2, h3, -⟩ := statusByteFacts c hc
  unfold processByte
  simp [h1, h2, h3]

/-- A data byte in `GOT_CC` whose CC number is unmapped (`NONE`): the input
status byte and the unchanged CC number are written unconditionally. -/
theorem processByte_gotCC_none (cfg : Config) (st : LoopState) (n : Nat)
    (hn : n < 128) (hrs : st.readState = .GOT_CC)
    (hm : (cfg.ccMaps n).type = .NONE) :
    processByte cfg st n =
      ({ st with
          ccNum := n
          readState := .PROCESS_CC_CC
          runningStatusOut :=
            midiSendStatus [st.runningStatusIn, n] st.runningStatusOut },
       [st.runningStatusIn, n]) := by
  have h1 : n &&& 128 = 0 := and128_eq_zero_of_lt n hn
  unfold processByte
  rw [hrs]
  simp [h1, hm]

/-- A data byte in `PROCESS_CC_CC`: the (scaled, clipped) value is written
as a single byte. -/
theorem processByte_ccVal (cfg : Config) (st : LoopState) (v : Nat)
    (hv : v < 128) (hrs : st.readState = .PROCESS_CC_CC) :
    processByte cfg st v =
      ({ st with
          readState := .GOT_CC
          runningStatusOut :=
            midiSendStatus [(ccInlineVal (cfg.ccMaps st.ccNum) v).toNat]
              st.runningStatusOut },
       [(ccInlineVal (cfg.ccMaps st.ccNum) v).toNat]) := by
  have h1 : v &&& 128 = 0 := and128_eq_zero_of_lt v hv
  unfold processByte
  rw [hrs]
  simp [h1]

/-- `ccVal` in `midiSendCc` is at most 127 after the live clipping test. -/
theorem ccSendVal_le127 (m : MidiMap) (val mx : Nat) :
    ccSendVal m val mx ≤ 127 := by
  unfold ccSendVal
  dsimp only
  split
  · exact le_refl 127
  · omega

/-- The running-status discipline of one encoder call: the destination
status byte `d` heads the output iff it differs from the previous output
status, no other emitted byte has bit 7 set, and the output status
afterwards equals `d` (the last status-carrying byte written, or the
unchanged previous value when suppression struck). -/
def statusOk (r : List Nat × Nat) (d rs : Nat) : Prop :=
  (d ≠ rs → r.1.head? = some d) ∧
  (d = rs → ∀ x ∈ r.1, x &&& 0x80 = 0) ∧
  (∀ x ∈ r.1.drop 1, x &&& 0x80 = 0) ∧
  r.2 = d

theorem statusOk_build (d rs : Nat) (data : List Nat) (hd : d &&& 0x80 ≠ 0)
    (hdata : ∀ x ∈ data, x &&& 0x80 = 0) :
    statusOk ((if d ≠ rs then [d] else []) ++ data,
      midiSendStatus ((if d ≠ rs then [d] else []) ++ data) rs) d rs := by
  by_cases h : d = rs
  · subst h
    simp only [ne_eq, not_true_eq_false, if_neg, ite_false, List.nil_append,
      not_false_eq_true]
    refine ⟨fun hcon => absurd rfl hcon, fun _ => hdata, ?_, ?_⟩
    · intro x hx
      exact hdata x (List.drop_subset 1 data hx)
    · exact midiSendStatus_nodata data d hdata
  · simp only [ne_eq, h, not_false_eq_true, if_pos, ite_true,
      List.singleton_append]
    refine ⟨fun _ => rfl, fun hcon => absurd hcon h, ?_, ?_⟩
    · intro x hx
      exact hdata x hx
    · exact midiSendStatus_cons d data rs hd hdata

/-- The mandatory RPN-null terminator. -/
def rpnNullTerm : List Nat := [0x65, 0x7F, 0x64, 0x7F]

/-- All data bytes built by `midiSendParm` have bit 7 clear. -/
theorem parmData_clear (m : MidiMap) (pv : Int) :
    ∀ x ∈ [(if m.type = RPN then 0x65 else 0x63),
      (m.num >>> 7) &&& 0x7F,
      (if m.type = RPN then 0x64 else 0x62),
      m.num &&& 0x7F, 0x06,
      (pv.toNat >>> 7) &&& 0x7F, 0x26, pv.toNat &&& 0x7F,
      0x65, 0x7F, 0x64, 0x7F], x &&& 0x80 = 0 := by
  intro x hx
  simp only [List.mem_cons, List.not_mem_nil, or_false] at hx
  rcases hx with rfl | rfl | rfl | rfl | rfl | rfl | rfl | rfl | rfl | rfl
    | rfl | rfl
  · split <;> decide
  · exact and127_and128 _
  · split <;> decide
  · exact and127_and128 _
  · decide
  · exact and127_and128 _
  · decide
  · exact and127_and128 _
  · decide
  · decide
  · decide
  · decide

/-- `midiSendParm` always ends in the RPN-null terminator, with no status
byte anywhere after the (optional) leading status. -/
theorem midiSendParm_term (rs ch : Nat) (m : MidiMap) (val mx : Nat) :
    ∃ pre, (midiSendParm rs ch m val mx).1 = pre ++ rpnNullTerm ∧
      ∀ x ∈ (midiSendParm rs ch m val mx).1.drop 1, x &&& 0x80 = 0 := by
  have hdata := parmData_clear m (parmClipped m val mx)
  have hbuf : (midiSendParm rs ch m val mx).1 =
      (if toUChar (0xB0 + ch) ≠ rs then [toUChar (0xB0 + ch)] else []) ++
      ([(if m.type = RPN then 0x65 else 0x63), (m.num >>> 7) &&& 0x7F,
        (if m.type = RPN then 0x64 else 0x62), m.num &&& 0x7F, 0x06,
        ((parmClipped m val mx).toNat >>> 7) &&& 0x7F, 0x26,
        (parmClipped m val mx).toNat &&& 0x7F] ++ rpnNullTerm) := rfl
  rw [hbuf]
  by_cases hs : toUChar (0xB0 + ch) ≠ rs
  · rw [if_pos hs]
    refine ⟨toUChar (0xB0 + ch) ::
      [(if m.type = RPN then 0x65 else 0x63), (m.num >>> 7) &&& 0x7F,
       (if m.type = RPN then 0x64 else 0x62), m.num &&& 0x7F, 0x06,
       ((parmClipped m val mx).toNat >>> 7) &&& 0x7F, 0x26,
       (parmClipped m val mx).toNat &&& 0x7F], by simp [rpnNullTerm], ?_⟩
    intro x hx
    refine hdata x ?_
    simpa [rpnNullTerm] using hx
  · rw [if_neg hs]
    refine ⟨[(if m.type = RPN then 0x65 else 0x63), (m.num >>> 7) &&& 0x7F,
       (if m.type = RPN then 0x64 else 0x62), m.num &&& 0x7F, 0x06,
       ((parmClipped m val mx).toNat >>> 7) &&& 0x7F, 0x26,
       (parmClipped m val mx).toNat &&& 0x7F], by simp [rpnNullTerm], ?_⟩
    intro x hx
    refine hdata x ?_
    have hx2 := List.drop_subset 1 _ hx
    simpa [rpnNullTerm] using hx2

/-! ### Concrete configurations used in the scenario theorems -/

/-- Scenario A configuration: CC 1 mapped to NRPN 2, default range. -/
def cfgScenarioA : Config :=
  ⟨fun n => if n = 1 then ⟨NRPN, 2, 0, 16383⟩ else defaultCcEntry,
   defaultAtEntry, defaultPbEntry⟩

/-- Scenario B configuration: CC 5 mapped to CC 6, default range. -/
def cfgScenarioB : Config :=
  ⟨fun n => if n = 5 then ⟨CC, 6, 0, 127⟩ else defaultCcEntry,
   defaultAtEntry, defaultPbEntry⟩

/-- CC 5 mapped to CC 6 with output range [0,100]. -/
def cfgScenarioB100 : Config :=
  ⟨fun n => if n = 5 then ⟨CC, 6, 0, 100⟩ else defaultCcEntry,
   defaultAtEntry, defaultPbEntry⟩

/-- Aftertouch mapped to CC 10 with range [-64,191] (the partially
out-of-range example from the shipped midiccmap.ini). -/
def cfgAtToCcNeg : Config :=
  ⟨fun _ => defaultCcEntry, ⟨CC, 10, -64, 191⟩, defaultPbEntry⟩

/-! ### Claim theorems -/

/-- Claim C1, counterexample.  With every CC unmapped, the two-message
input `B0 05 40 05 46` (second message under input running status) does not
reproduce byte-for-byte: the code re-emits the status byte `B0` before the
second message unconditionally, so the claimed identity pass-through fails. -/
theorem C1_counterexample :
    (processBytes initConfig initState [0xB0, 5, 64, 5, 70]).2 ≠
      [0xB0, 5, 64, 5, 70] ∧
    (processBytes initConfig initState [0xB0, 5, 64, 5, 70]).2 =
      [0xB0, 5, 64, 0xB0, 5, 70] := by decide

/-- Claim C1 as amended: for an unmapped (`NONE`) CC number, a CC message
produces exactly the bytes `[0xB0+channel, ccNum, value]` — identical to a
status-carrying input message — for every prior loop state, in particular
for every prior `lastOutputStatus`: the input status byte is re-emitted
unconditionally (`// Catch up with status`), not only when it differs from
`lastOutputStatus`. -/
theorem C1_theorem (cfg : Config) (st : LoopState) (ch num val : Nat)
    (hch : ch < 16) (hnum : num < 128) (hval : val < 128)
    (hmap : cfg.ccMaps num = defaultCcEntry) :
    (processBytes cfg st [0xB0 + ch, num, val]).2 = [0xB0 + ch, num, val] := by
  have hmt : (cfg.ccMaps num).type = .NONE := by rw [hmap]; rfl
  simp only [processBytes]
  rw [processByte_ccStatus cfg st ch hch]
  dsimp only
  rw [processByte_gotCC_none cfg _ num hnum rfl hmt]
  dsimp only
  rw [processByte_ccVal cfg _ val hval rfl]
  dsimp only
  rw [hmap, ccInlineVal_default val hval]
  simp

/-- Claim C1, witness for the amended theorem. -/
theorem C1_witness :
    (processBytes initConfig initState [0xB0, 5, 64]).2 = [0xB0, 5, 64] := by
  simpa using C1_theorem initConfig initState 0 5 64 (by decide) (by decide)
    (by decide) rfl

/-- Claim C2 (code bug).  The entry mapping a source to CC destination 10
with bounds [-64,191] is accepted at configuration time (with a clipping
warning), and on source value 0 the scaled value is -64 < 0; the claim (and
the code's own comment `If scaling results in an out of range output value,
it will be clipped to legal output range`, together with its dead
`if (ccVal<0) ccVal=0;` test) demand the emitted value 0, but `ccVal` is an
`unsigned char`, so -64 wraps to 192 and the live `>127` test emits 127:
the aftertouch dispatch outputs `[0xB0, 10, 127]`, not `[0xB0, 10, 0]`. -/
theorem C2_theorem :
    (setMidiMap defaultAtEntry .CC 10 (-64) 191).err = none ∧
    MapWarning.clip ∈ (setMidiMap defaultAtEntry .CC 10 (-64) 191).warnings ∧
    (setMidiMap defaultAtEntry .CC 10 (-64) 191).map = ⟨CC, 10, -64, 191⟩ ∧
    ((-64 : Int) + Int.tdiv (0 * (191 - -64)) 127 = -64) ∧
    ccSendVal ⟨CC, 10, -64, 191⟩ 0 127 = 127 ∧
    (processByte cfgAtToCcNeg ⟨.GOT_AT, 0xD0, 0, 0, 0, 0⟩ 0).2 =
      [0xB0, 10, 127] ∧
    [0xB0, 10, 127] ≠ [0xB0, 10, 0] := by decide

/-- Claim C3, counterexample.  CC 5 remapped to CC 6: two consecutive
remapped CC messages, both producing destination status `0xB0`, emit that
status byte twice (the `GOT_CC`/`CC` branch writes `runningStatusIn`
unconditionally), not once as claimed. -/
theorem C3_counterexample :
    (processBytes cfgScenarioB initState [0xB0, 5, 64, 5, 70]).2 =
      [0xB0, 6, 64, 0xB0, 6, 70] ∧
    (processBytes cfgScenarioB initState [0xB0, 5, 64, 5, 70]).2.count 0xB0
      = 2 := by decide

/-- Claim C3 as amended: for every dispatch routed through the four encoder
functions (`midiSendParm`, `midiSendCc`, `midiSendPb`, `midiSendAt` — i.e.
CC to NRPN/RPN/PB/AT and every mapped aftertouch or pitch-bend source), the
destination status byte is written only when it differs from
`lastOutputStatus`, no other written byte carries bit 7, and afterwards
`lastOutputStatus` equals the destination status (the last status-carrying
byte actually written, or the unchanged old value when suppression struck);
the main-loop CC-to-CC and unmapped-CC branches are excluded, as they
re-emit `0xB0+channel` unconditionally. -/
theorem C3_theorem (rs ch : Nat) (m : MidiMap) (val mx : Nat)
    (hch : ch < 16) (hnum : m.num < 128) :
    statusOk (midiSendParm rs ch m val mx) (0xB0 + ch) rs ∧
    statusOk (midiSendCc rs ch m val mx) (0xB0 + ch) rs ∧
    statusOk (midiSendPb rs ch m val mx) (0xE0 + ch) rs ∧
    statusOk (midiSendAt rs ch m val mx) (0xD0 + ch) rs := by
  obtain ⟨hB, -, -, hD, hE⟩ := statusByteFacts ch hch
  have eB : toUChar (0xB0 + ch) = 0xB0 + ch := Nat.mod_eq_of_lt (by omega)
  have eD : toUChar (0xD0 + ch) = 0xD0 + ch := Nat.mod_eq_of_lt (by omega)
  have eE : toUChar (0xE0 + ch) = 0xE0 + ch := Nat.mod_eq_of_lt (by omega)
  refine ⟨?_, ?_, ?_, ?_⟩
  · have h := statusOk_build (0xB0 + ch) rs _ hB
      (parmData_clear m (parmClipped m val mx))
    simpa [midiSendParm, eB] using h
  · have hcc : ∀ x ∈ [toUChar m.num, ccSendVal m val mx], x &&& 0x80 = 0 := by
      intro x hx
      simp only [List.mem_cons, List.not_mem_nil, or_false] at hx
      rcases hx with rfl | rfl
      · exact and128_eq_zero_of_lt _ (by unfold toUChar; omega)
      · exact and128_eq_zero_of_lt _
          (Nat.lt_succ_of_le (ccSendVal_le127 m val mx))
    have h := statusOk_build (0xB0 + ch) rs _ hB hcc
    simpa [midiSendCc, eB] using h
  · have hpb : ∀ x ∈ [(pbSendVal m val mx).toNat &&& 0x7F,
        ((pbSendVal m val mx).toNat >>> 7) &&& 0x7F], x &&& 0x80 = 0 := by
      intro x hx
      simp only [List.mem_cons, List.not_mem_nil, or_false] at hx
      rcases hx with rfl | rfl
      · exact and127_and128 _
      · exact and127_and128 _
    have h := statusOk_build (0xE0 + ch) rs _ hE hpb
    simpa [midiSendPb, eE] using h
  · have hat : ∀ x ∈ [(atSendVal m val mx).toNat &&& 0x7F],
        x &&& 0x80 = 0 := by
      intro x hx
      simp only [List.mem_cons, List.not_mem_nil, or_false] at hx
      rcases hx with rfl
      exact and127_and128 _
    have h := statusOk_build (0xD0 + ch) rs _ hD hat
    simpa [midiSendAt, eD] using h

/-- Claim C3, witness for the amended theorem. -/
theorem C3_witness :
    statusOk (midiSendParm 0 0 ⟨NRPN, 2, 0, 16383⟩ 64 127) 0xB0 0 ∧
    statusOk (midiSendCc 0 0 ⟨NRPN, 2, 0, 16383⟩ 64 127) 0xB0 0 ∧
    statusOk (midiSendPb 0 0 ⟨NRPN, 2, 0, 16383⟩ 64 127) 0xE0 0 ∧
    statusOk (midiSendAt 0 0 ⟨NRPN, 2, 0, 16383⟩ 64 127) 0xD0 0 := by
  simpa using C3_theorem 0 0 ⟨NRPN, 2, 0, 16383⟩ 64 127 (by decide) (by decide)

/-- Claim C4, counterexample.  With CC 5 mapped to CC 6 (default range),
input `[0xB0,5,64]` from the reset output-status state produces
`[0xB0,6,64]` — 64*127/127 = 64 exactly — not the claimed `[0xB0,6,63]`. -/
theorem C4_counterexample :
    (processBytes cfgScenarioB initState [0xB0, 5, 64]).2 = [0xB0, 6, 64] ∧
    (processBytes cfgScenarioB initState [0xB0, 5, 64]).2 ≠
      [0xB0, 6, 63] := by decide

/-- Claim C4 as amended: the output for `[0xB0,5,64]` is `[0xB0,6,64]`
(exact: 64*127/127 = 64); the non-exact truncation case holds as claimed:
with range [0,100], input value 1 of 127 scales to 0 (`1*100/127 = 0`), so
`[0xB0,5,1]` yields `[0xB0,6,0]`. -/
theorem C4_theorem :
    (processBytes cfgScenarioB initState [0xB0, 5, 64]).2 = [0xB0, 6, 64] ∧
    (processBytes cfgScenarioB100 initState [0xB0, 5, 1]).2 =
      [0xB0, 6, 0] ∧
    ccInlineVal ⟨CC, 6, 0, 100⟩ 1 = 0 := by decide

/-- Claim C5 (code bug).  The reversed-range NRPN entry
`valueFrom=16383, valueTo=0` is accepted (the code's comment says `Range can
be reversed, and bounds can be negative`), but on source value 1 of 127
`midiSendParm` computes the product and division in unsigned 32-bit
arithmetic (`unsigned int val` times the `int` difference, no `(long)` cast
unlike `midiSendPb`/`midiSendAt`), giving 33834894 → clipped to 16383,
whereas the claimed truncate-toward-zero formula
`16383 + 1*(0-16383)/127` gives 16254 — which is exactly what the correctly
cast `midiSendPb` arithmetic produces on the same entry. -/
theorem C5_theorem :
    (setMidiMap defaultCcEntry .NRPN 5 16383 0).err = none ∧
    (setMidiMap defaultCcEntry .NRPN 5 16383 0).map = ⟨NRPN, 5, 16383, 0⟩ ∧
    parmScaleRaw ⟨NRPN, 5, 16383, 0⟩ 1 127 = 33834894 ∧
    parmClipped ⟨NRPN, 5, 16383, 0⟩ 1 127 = 16383 ∧
    ((16383 : Int) + Int.tdiv (1 * (0 - 16383)) 127 = 16254) ∧
    pbSendVal ⟨NRPN, 5, 16383, 0⟩ 1 127 = 16254 ∧
    parmClipped ⟨NRPN, 5, 16383, 0⟩ 1 127 ≠
      (16383 : Int) + Int.tdiv (1 * (0 - 16383)) 127 := by decide

/-- Claim C6: every dispatch whose destination type is NRPN or RPN — from a
mapped CC (`PROCESS_CC_PARM`), from aftertouch (`GOT_AT`), or from pitch
bend (`PROCESS_PB`) — emits a byte sequence ending in the four bytes
`65 7F 64 7F`, for every running-status state (never suppressed), and every
emitted byte after the optional leading status byte has bit 7 clear, so no
fresh status byte precedes the terminator. -/
theorem C6_theorem (cfg : Config) (st : LoopState) (b : Nat) (hb : b < 128) :
    (st.readState = .PROCESS_CC_PARM →
      ∃ pre, (processByte cfg st b).2 = pre ++ rpnNullTerm ∧
        ∀ x ∈ (processByte cfg st b).2.drop 1, x &&& 0x80 = 0) ∧
    (st.readState = .GOT_AT →
      (cfg.atMap.type = NRPN ∨ cfg.atMap.type = RPN) →
      ∃ pre, (processByte cfg st b).2 = pre ++ rpnNullTerm ∧
        ∀ x ∈ (processByte cfg st b).2.drop 1, x &&& 0x80 = 0) ∧
    (st.readState = .PROCESS_PB →
      (cfg.pbMap.type = NRPN ∨ cfg.pbMap.type = RPN) →
      ∃ pre, (processByte cfg st b).2 = pre ++ rpnNullTerm ∧
        ∀ x ∈ (processByte cfg st b).2.drop 1, x &&& 0x80 = 0) := by
  have h1 : b &&& 128 = 0 := and128_eq_zero_of_lt b hb
  refine ⟨?_, ?_, ?_⟩
  · intro hrs
    have hout : (processByte cfg st b).2 =
        (midiSendParm st.runningStatusOut st.channel
          (cfg.ccMaps st.ccNum) b 127).1 := by
      unfold processByte
      rw [hrs]
      simp [h1]
    rw [hout]
    exact midiSendParm_term _ _ _ _ _
  · intro hrs hty
    have hout : (processByte cfg st b).2 =
        (midiSendParm st.runningStatusOut st.channel cfg.atMap b 127).1 := by
      unfold processByte
      rw [hrs]
      rcases hty with h | h <;> simp [h1, h]
    rw [hout]
    exact midiSendParm_term _ _ _ _ _
  · intro hrs hty
    have hout : (processByte cfg st b).2 =
        (midiSendParm st.runningStatusOut st.channel cfg.pbMap
          (st.pbLSB + ((b &&& 0x7F) <<< 7)) 16383).1 := by
      unfold processByte
      rw [hrs]
      rcases hty with h | h <;> simp [h1, h]
    rw [hout]
    exact midiSendParm_term _ _ _ _ _

/-- Claim C6, witness: a CC-mapped NRPN dispatch (Scenario A's entry) with
the output running status already equal to `0xB0`. -/
theorem C6_witness :
    ∃ pre, (processByte cfgScenarioA ⟨.PROCESS_CC_PARM, 0xB0, 0xB0, 0, 1, 0⟩
        64).2 = pre ++ rpnNullTerm ∧
      ∀ x ∈ (processByte cfgScenarioA ⟨.PROCESS_CC_PARM, 0xB0, 0xB0, 0, 1, 0⟩
        64).2.drop 1, x &&& 0x80 = 0 :=
  (C6_theorem cfgScenarioA ⟨.PROCESS_CC_PARM, 0xB0, 0xB0, 0, 1, 0⟩ 64
    (by decide)).1 rfl

/-- Claim C7: for a construction request whose destination number passes its
own validation, the entry is rejected with the "unusable output range" error
exactly when both bounds lie strictly below the type's minimum or both lie
strictly above its maximum; with exactly one bound out of range the entry is
accepted and a clipping warning is recorded. -/
theorem C7_theorem (entry : MidiMap) (t : MapType) (n : Nat) (f e : Int)
    (hn : badDestNum t n = false) :
    ((setMidiMap entry t n f e).err = some .unusableRange ↔
      (f < mapToMin t ∧ e < mapToMin t) ∨ (f > mapToMax t ∧ e > mapToMax t)) ∧
    ((¬ ((f < mapToMin t ∧ e < mapToMin t) ∨
         (f > mapToMax t ∧ e > mapToMax t))) →
      (f < mapToMin t ∨ e < mapToMin t ∨ f > mapToMax t ∨ e > mapToMax t) →
      (setMidiMap entry t n f e).err = none ∧
        MapWarning.clip ∈ (setMidiMap entry t n f e).warnings) := by
  unfold setMidiMap
  rw [hn]
  by_cases hr : (f < mapToMin t ∧ e < mapToMin t) ∨
      (f > mapToMax t ∧ e > mapToMax t)
  · simp [hr]
  · by_cases hc : f < mapToMin t ∨ e < mapToMin t ∨ f > mapToMax t ∨
        e > mapToMax t
    · simp [hr, hc]
    · simp [hr, hc]

/-- Claim C7, witness (Scenario E): `valueFrom=200, valueTo=300` on a `Cc`
destination is rejected as unusable output range. -/
theorem C7_witness :
    (setMidiMap defaultCcEntry .CC 6 200 300).err =
      some .unusableRange :=
  (C7_theorem defaultCcEntry .CC 6 200 300 (by decide)).1.mpr (by decide)

/-- A mapping write that passes both validation checks of `setMidiMap`
(destination number legal for the type, and not both bounds on the same
out-of-range side). -/
def validWrite (t : MapType) (n : Nat) (f e : Int) : Prop :=
  badDestNum t n = false ∧
  ¬ ((f < mapToMin t ∧ e < mapToMin t) ∨ (f > mapToMax t ∧ e > mapToMax t))

/-- Claim C8: two valid writes to the same slot both succeed — the second
never errors, whatever the existing entry holds — the slot afterwards holds
exactly the second entry, and when the first write installed a non-`NONE`
type the second emits the duplicate-definition warning. -/
theorem C8_theorem (m : MidiMap) (t1 : MapType) (n1 : Nat) (f1 e1 : Int)
    (t2 : MapType) (n2 : Nat) (f2 e2 : Int)
    (h1 : validWrite t1 n1 f1 e1) (h2 : validWrite t2 n2 f2 e2) :
    (setMidiMap m t1 n1 f1 e1).err = none ∧
    (setMidiMap (setMidiMap m t1 n1 f1 e1).map t2 n2 f2 e2).err = none ∧
    (setMidiMap (setMidiMap m t1 n1 f1 e1).map t2 n2 f2 e2).map =
      ⟨t2, n2, toInt32 f2, toInt32 e2⟩ ∧
    (t1 ≠ NONE →
      MapWarning.duplicate ∈
        (setMidiMap (setMidiMap m t1 n1 f1 e1).map t2 n2 f2 e2).warnings) := by
  obtain ⟨h1n, h1r⟩ := h1
  obtain ⟨h2n, h2r⟩ := h2
  have hmap1 : (setMidiMap m t1 n1 f1 e1).map =
      ⟨t1, n1, toInt32 f1, toInt32 e1⟩ := by
    unfold setMidiMap
    rw [h1n]
    simp [h1r]
  have herr1 : (setMidiMap m t1 n1 f1 e1).err = none := by
    unfold setMidiMap
    rw [h1n]
    simp [h1r]
  refine ⟨herr1, ?_, ?_, ?_⟩ <;> rw [hmap1] <;> unfold setMidiMap <;>
    rw [h2n] <;>
    by_cases hc : f2 < mapToMin t2 ∨ e2 < mapToMin t2 ∨ f2 > mapToMax t2 ∨
      e2 > mapToMax t2 <;>
    simp [h2r, hc]

/-- Claim C8, witness (Scenario D): CC 2 first mapped to NRPN 3, then to
NRPN 4 — the second write succeeds, only the NRPN 4 entry remains, and the
duplicate warning is recorded. -/
theorem C8_witness :
    (setMidiMap defaultCcEntry .NRPN 3 0 16383).err = none ∧
    (setMidiMap (setMidiMap defaultCcEntry .NRPN 3 0 16383).map
      .NRPN 4 0 16383).err = none ∧
    (setMidiMap (setMidiMap defaultCcEntry .NRPN 3 0 16383).map
      .NRPN 4 0 16383).map = ⟨NRPN, 4, toInt32 0, toInt32 16383⟩ ∧
    (MapType.NRPN ≠ NONE →
      MapWarning.duplicate ∈
        (setMidiMap (setMidiMap defaultCcEntry .NRPN 3 0 16383).map
          .NRPN 4 0 16383).warnings) :=
  C8_theorem defaultCcEntry .NRPN 3 0 16383 .NRPN 4 0 16383
    ⟨by decide, by decide⟩ ⟨by decide, by decide⟩

/-- Claim C9: every byte with bit 7 set, processed from any prior decoder
state, installs itself as `lastInputStatus`, sets the channel from its low
nibble, and moves the decoder to `GOT_CC`/`GOT_AT`/`GOT_PB` for high nibble
`0xB`/`0xD`/`0xE` and to `PASSTHRU` otherwise — the resulting parse state is
the same for every prior state, so a partially received message (a pending
pitch-bend MSB or CC value) is dropped, never carried over. -/
theorem C9_theorem (cfg : Config) (st : LoopState) (b : Nat)
    (hb1 : 128 ≤ b) (hb2 : b < 256) :
    (processByte cfg st b).1.runningStatusIn = b ∧
    (processByte cfg st b).1.channel = b &&& 0x0F ∧
    (processByte cfg st b).1.readState =
      (if b &&& 0xF0 = 0xB0 then ReadState.GOT_CC
       else if b &&& 0xF0 = 0xD0 then ReadState.GOT_AT
       else if b &&& 0xF0 = 0xE0 then ReadState.GOT_PB
       else ReadState.PASSTHRU) := by
  have hb : (b &&& 128 != 0) = true := by
    simpa using and128_ne_zero_of_status b hb2 hb1
  unfold processByte
  rw [hb]
  by_cases h1 : b &&& 240 = 176 <;> by_cases h2 : b &&& 240 = 208 <;>
    by_cases h3 : b &&& 240 = 224 <;> simp [h1, h2, h3]

/-- Claim C9, witness: a note-on status byte `0x90` interrupting a partially
received pitch-bend message (LSB 42 pending) resets the decoder to
`PASSTHRU` on channel 0 and installs `0x90` as `lastInputStatus`. -/
theorem C9_witness :
    (processByte initConfig ⟨.PROCESS_PB, 0xE0, 0, 0, 0, 42⟩ 0x90).1.runningStatusIn
      = 0x90 ∧
    (processByte initConfig ⟨.PROCESS_PB, 0xE0, 0, 0, 0, 42⟩ 0x90).1.channel
      = 0 ∧
    (processByte initConfig ⟨.PROCESS_PB, 0xE0, 0, 0, 0, 42⟩ 0x90).1.readState
      = .PASSTHRU := by
  have h := C9_theorem initConfig ⟨.PROCESS_PB, 0xE0, 0, 0, 0, 42⟩ 0x90
    (by decide) (by decide)
  exact ⟨h.1, h.2.1.trans (by decide), h.2.2.trans (by decide)⟩

/-- Claim C10: when `setMidiMap` rejects a request (either error), every
field of the targeted entry is left exactly as it was — all `return(-1)`
paths precede the four assignments. -/
theorem C10_theorem (m : MidiMap) (t : MapType) (n : Nat) (f e : Int)
    (her : (setMidiMap m t n f e).err.isSome) :
    (setMidiMap m t n f e).map = m := by
  unfold setMidiMap at her ⊢
  by_cases hn : badDestNum t n
  · rw [hn] at her ⊢
    simp
  · rw [Bool.not_eq_true] at hn
    rw [hn] at her ⊢
    by_cases hr : (f < mapToMin t ∧ e < mapToMin t) ∨
        (f > mapToMax t ∧ e > mapToMax t)
    · simp [hr]
    · simp [hr] at her

/-- Claim C10, witness: a rejected write (destination CC number 200 out of
range) leaves the previously configured entry untouched. -/
theorem C10_witness :
    (setMidiMap ⟨CC, 5, 0, 127⟩ .CC 200 0 127).map = ⟨CC, 5, 0, 127⟩ :=
  C10_theorem ⟨CC, 5, 0, 127⟩ .CC 200 0 127 (by decide)

end Midiccmap
